import Mathlib

/-!
# Shallow embedding of the ACDSYN configuration module (`src/config.py`)

The repository consists of a pydantic-based configuration module
(`config.py`) and a structured-logging wrapper (`logger.py`).  This file
embeds `config.py`: the enum types, the `ACDSYNConfig` settings class with
its two validators, the `get_config` process-wide singleton, and
`load_yaml_config`.

Modelling decisions:

* The process environment is an association list of (name, value) string
  pairs; pydantic's `case_sensitive = False` lookup is modelled by
  lower-casing names on both sides.
* The filesystem is an association list from path to file contents;
  `Path.exists()` is membership.
* Python floats only ever enter this module as decimal literals parsed from
  environment strings and are only compared against 0 and 1, so they are
  embedded as `Rat`.  The numeric string parsers cover the plain
  decimal/integer fragment actually exercised (no exponent notation,
  no inf/nan).
* pydantic aggregates per-field errors into one `ValidationError`; the
  embedding short-circuits at the first failing field in declaration
  order.  Every theorem below either exercises a single-fault environment
  or only claims that the load fails, so the difference is not observable
  in the statements.
* `ACDSYNConfig()` raising is wrapped by `get_config` into
  `RuntimeError(f"Failed to load configuration: {e}")`; the wrapper is
  modelled by `LoadError.runtimeError` carrying the original cause.
* Environment override of `domain_configs` (which pydantic would decode
  from JSON) is outside the modelled fragment; load-level theorems that
  quantify over environments carry the hypothesis that `DOMAIN_CONFIGS`
  is unset (`optsOkB` includes this).
-/

/-- A process environment: association list of variable name/value pairs. -/
abbrev Env : Type := List (String × String)

/-- A filesystem: association list from path to file contents. -/
abbrev FS : Type := List (String × String)

/-- Python `str.lower()` (ASCII fragment), evaluated character by
character so that concrete instances reduce in the kernel. -/
def lowerStr (s : String) : String :=
  String.mk (s.toList.map Char.toLower)

/-- Split a character list at every occurrence of `c`; the list-of-parts
semantics of Python `str.split(c)` on a single-character separator. -/
def splitChar (c : Char) : List Char → List (List Char)
  | [] => [[]]
  | x :: xs =>
    let r := splitChar c xs
    if x = c then [] :: r
    else
      match r with
      | [] => [[x]]
      | h :: t => (x :: h) :: t

/-- Python `str.strip()` on a character list. -/
def trimChars (cs : List Char) : List Char :=
  ((cs.dropWhile Char.isWhitespace).reverse.dropWhile Char.isWhitespace).reverse

/-- Case-insensitive environment lookup, as pydantic does with
`case_sensitive = False` (env names are matched after lower-casing). -/
def lookupEnv (env : Env) (name : String) : Option String :=
  (List.find? (fun p => lowerStr p.1 = lowerStr name) env).map (fun p => p.2)

/-- Contents of the file at path `p`, if it exists. -/
def lookupFS (fs : FS) (p : String) : Option String :=
  (List.find? (fun e => e.1 = p) fs).map (fun e => e.2)

/-- `Path.exists()` for the modelled filesystem. -/
def pathExists (fs : FS) (p : String) : Bool :=
  (lookupFS fs p).isSome

/-- `class DomainType(str, Enum)` from `config.py`. -/
inductive DomainType where
  | DATA_SCIENCE
  | SOFTWARE_ENGINEERING
  | RESEARCH
  | AUTOMATION
  | FINANCE
  | HEALTHCARE
deriving DecidableEq, Repr

/-- The declared string value of each `DomainType` variant. -/
def DomainType.value : DomainType → String
  | .DATA_SCIENCE => "data_science"
  | .SOFTWARE_ENGINEERING => "software_engineering"
  | .RESEARCH => "research"
  | .AUTOMATION => "automation"
  | .FINANCE => "finance"
  | .HEALTHCARE => "healthcare"

/-- Enum coercion `DomainType(s)`: matches a declared variant value
case-sensitively, as pydantic v1 does for `str`-based enums. -/
def parseDomainType (s : String) : Option DomainType :=
  if s = "data_science" then some .DATA_SCIENCE
  else if s = "software_engineering" then some .SOFTWARE_ENGINEERING
  else if s = "research" then some .RESEARCH
  else if s = "automation" then some .AUTOMATION
  else if s = "finance" then some .FINANCE
  else if s = "healthcare" then some .HEALTHCARE
  else none

/-- `class SynthesisStrategy(str, Enum)` from `config.py`. -/
inductive SynthesisStrategy where
  | PARALLEL
  | SEQUENTIAL
  | HYBRID
  | EMERGENT
deriving DecidableEq, Repr

/-- The declared string value of each `SynthesisStrategy` variant. -/
def SynthesisStrategy.value : SynthesisStrategy → String
  | .PARALLEL => "parallel"
  | .SEQUENTIAL => "sequential"
  | .HYBRID => "hybrid"
  | .EMERGENT => "emergent"

/-- Enum coercion `SynthesisStrategy(s)`: case-sensitive match against the
declared variant values. -/
def parseStrategy (s : String) : Option SynthesisStrategy :=
  if s = "parallel" then some .PARALLEL
  else if s = "sequential" then some .SEQUENTIAL
  else if s = "hybrid" then some .HYBRID
  else if s = "emergent" then some .EMERGENT
  else none

/-- `class LogLevel(str, Enum)` from `config.py`. -/
inductive LogLevel where
  | DEBUG
  | INFO
  | WARNING
  | ERROR
  | CRITICAL
deriving DecidableEq, Repr

/-- The declared string value of each `LogLevel` variant. -/
def LogLevel.value : LogLevel → String
  | .DEBUG => "DEBUG"
  | .INFO => "INFO"
  | .WARNING => "WARNING"
  | .ERROR => "ERROR"
  | .CRITICAL => "CRITICAL"

/-- Enum coercion `LogLevel(s)`: case-sensitive match against the declared
variant values. -/
def parseLogLevel (s : String) : Option LogLevel :=
  if s = "DEBUG" then some .DEBUG
  else if s = "INFO" then some .INFO
  else if s = "WARNING" then some .WARNING
  else if s = "ERROR" then some .ERROR
  else if s = "CRITICAL" then some .CRITICAL
  else none

/-- Parse a nonempty all-digit string as a natural number. -/
def parseNatStr (s : String) : Option Nat :=
  let cs := s.toList
  if cs.isEmpty then none
  else if cs.all Char.isDigit then
    some (cs.foldl (fun n c => n * 10 + (c.toNat - 48)) 0)
  else none

/-- Python `int(s)` on the signed-decimal fragment: optional sign then
digits. -/
def parseIntStr (s : String) : Option Int :=
  match s.toList with
  | '-' :: rest => (parseNatStr (String.mk rest)).map (fun n => -(n : Int))
  | '+' :: rest => (parseNatStr (String.mk rest)).map (fun n => (n : Int))
  | _ => (parseNatStr s).map (fun n => (n : Int))

/-- Decimal core of `float(s)`: `digits`, `digits.digits`, `digits.` or
`.digits`. -/
def parseRatCore (t : String) : Option Rat :=
  match splitChar '.' t.toList with
  | [w] => (parseNatStr (String.mk w)).map (fun n => Rat.divInt (Int.ofNat n) 1)
  | [w, f] =>
    if w.isEmpty && f.isEmpty then none
    else
      let wn := if w.isEmpty then some 0 else parseNatStr (String.mk w)
      let fn := if f.isEmpty then some 0 else parseNatStr (String.mk f)
      match wn, fn with
      | some a, some b =>
        some (Rat.divInt (Int.ofNat (a * 10 ^ f.length + b)) (Int.ofNat (10 ^ f.length)))
      | _, _ => none
  | _ => none

/-- Python `float(s)` on the plain signed-decimal fragment. -/
def parseRatStr (s : String) : Option Rat :=
  match s.toList with
  | '-' :: rest => (parseRatCore (String.mk rest)).map (fun q => -q)
  | '+' :: rest => parseRatCore (String.mk rest)
  | _ => parseRatCore s

/-- pydantic v1 `bool_validator` on strings: recognised truthy/falsy
spellings, case-insensitively; anything else fails coercion. -/
def parseBoolStr (s : String) : Option Bool :=
  let t := lowerStr s
  if t = "1" || t = "on" || t = "t" || t = "true" || t = "y" || t = "yes" then some true
  else if t = "0" || t = "off" || t = "f" || t = "false" || t = "n" || t = "no" then some false
  else none

/-- Values appearing in the `domain_configs` default mapping. -/
inductive CVal where
  | cInt (n : Int)
  | cStr (s : String)
  | cStrList (l : List String)
deriving DecidableEq, Repr

/-- The literal default of the `domain_configs` field in `config.py`. -/
def defaultDomainConfigs : List (DomainType × List (String × CVal)) :=
  [ (DomainType.DATA_SCIENCE,
      [ ("max_components", CVal.cInt 50),
        ("allowed_libraries", CVal.cStrList ["pandas", "numpy", "scikit-learn"]),
        ("data_requirements", CVal.cStrList ["clean", "structured"]) ]),
    (DomainType.SOFTWARE_ENGINEERING,
      [ ("max_components", CVal.cInt 100),
        ("allowed_languages", CVal.cStrList ["python", "javascript"]),
        ("code_standards", CVal.cStrList ["pep8", "eslint"]) ]) ]

/-- `class ACDSYNConfig(BaseSettings)` from `config.py`, with the same
fields in the same declaration order. -/
structure ACDSYNConfig where
  firebase_project_id : String
  firebase_credentials_path : String
  firestore_collection_prefix : String
  max_domain_connections : Int
  synthesis_timeout_seconds : Int
  retry_attempts : Int
  retry_delay_seconds : Int
  metrics_collection_interval : Int
  optimization_cycle_hours : Int
  performance_threshold : Rat
  log_level : LogLevel
  log_format : String
  enable_structured_logging : Bool
  default_strategy : SynthesisStrategy
  enable_emergent_behavior : Bool
  max_synthesis_depth : Int
  compatibility_threshold : Rat
  domain_configs : List (DomainType × List (String × CVal))
deriving DecidableEq, Repr

/-- The distinguishable causes with which `ACDSYNConfig()` can raise:
pydantic's missing-required-field report, a per-field validation failure
(failed coercion or failed value check), and the `FileNotFoundError`
raised by `validate_credentials_path`. -/
inductive ConfigError where
  | missingRequiredField (field : String)
  | validationError (field : String) (msg : String)
  | credentialsNotFound (path : String)
deriving DecidableEq, Repr

/-- `get_config` re-raises any construction failure as
`RuntimeError(f"Failed to load configuration: {e}")`; the wrapper keeps
the original cause. -/
inductive LoadError where
  | runtimeError (cause : ConfigError)
deriving DecidableEq, Repr

/-- Resolution of a required field (`Field(..., env=envName)`): the value
must be present in the environment, or pydantic reports the field as
missing.  String fields undergo no further coercion. -/
def getRequiredField (env : Env) (envName : String) (fieldName : String) :
    Except ConfigError String :=
  match lookupEnv env envName with
  | none => Except.error (ConfigError.missingRequiredField fieldName)
  | some s => Except.ok s

/-- Resolution of an optional field: the declared default when the
environment variable is unset, otherwise the coerced value; a value that
fails coercion is a validation error on that field. -/
def getOptField {α : Type} (env : Env) (name : String)
    (parse : String → Option α) (dflt : α) : Except ConfigError α :=
  match lookupEnv env name with
  | none => Except.ok dflt
  | some s =>
    match parse s with
    | some v => Except.ok v
    | none => Except.error (ConfigError.validationError name "value could not be coerced to the field type")

/-- `validate_credentials_path` from `config.py`: raises
`FileNotFoundError` when the path does not exist, otherwise returns the
path unchanged. -/
def validate_credentials_path (fs : FS) (v : String) : Except ConfigError String :=
  if pathExists fs v then Except.ok v
  else Except.error (ConfigError.credentialsNotFound v)

/-- `validate_threshold` from `config.py`: applies only to
`compatibility_threshold` and requires `0 <= v <= 1`, returning the value
unchanged. -/
def validate_threshold (v : Rat) : Except ConfigError Rat :=
  if 0 ≤ v ∧ v ≤ 1 then Except.ok v
  else Except.error (ConfigError.validationError "compatibility_threshold" "compatibility_threshold must be between 0 and 1")

/-- `ACDSYNConfig()` — settings construction: resolve each field from the
environment (defaults for unset optional fields), run the two declared
validators, and build the record.  Fields are processed in declaration
order. -/
def buildConfig (env : Env) (fs : FS) : Except ConfigError ACDSYNConfig := do
  let pid ← getRequiredField env "FIREBASE_PROJECT_ID" "firebase_project_id"
  let cpRaw ← getRequiredField env "FIREBASE_CREDENTIALS_PATH" "firebase_credentials_path"
  let cp ← validate_credentials_path fs cpRaw
  let pfx ← getOptField env "firestore_collection_prefix" (fun s => some s) "acdsyn_"
  let mdc ← getOptField env "max_domain_connections" parseIntStr 100
  let sts ← getOptField env "synthesis_timeout_seconds" parseIntStr 300
  let ra ← getOptField env "retry_attempts" parseIntStr 3
  let rds ← getOptField env "retry_delay_seconds" parseIntStr 5
  let mci ← getOptField env "metrics_collection_interval" parseIntStr 60
  let och ← getOptField env "optimization_cycle_hours" parseIntStr 24
  let pt ← getOptField env "performance_threshold" parseRatStr (Rat.divInt 4 5)
  let ll ← getOptField env "log_level" parseLogLevel LogLevel.INFO
  let lf ← getOptField env "log_format" (fun s => some s) "json"
  let esl ← getOptField env "enable_structured_logging" parseBoolStr true
  let ds ← getOptField env "default_strategy" parseStrategy SynthesisStrategy.HYBRID
  let eeb ← getOptField env "enable_emergent_behavior" parseBoolStr true
  let msd ← getOptField env "max_synthesis_depth" parseIntStr 5
  let ctRaw ← getOptField env "compatibility_threshold" parseRatStr (Rat.divInt 7 10)
  let ct ← validate_threshold ctRaw
  pure
    { firebase_project_id := pid
      firebase_credentials_path := cp
      firestore_collection_prefix := pfx
      max_domain_connections := mdc
      synthesis_timeout_seconds := sts
      retry_attempts := ra
      retry_delay_seconds := rds
      metrics_collection_interval := mci
      optimization_cycle_hours := och
      performance_threshold := pt
      log_level := ll
      log_format := lf
      enable_structured_logging := esl
      default_strategy := ds
      enable_emergent_behavior := eeb
      max_synthesis_depth := msd
      compatibility_threshold := ct
      domain_configs := defaultDomainConfigs }

/-- `get_config()` with the module-level singleton `_config` made an
explicit state: returns the cached instance when set; otherwise attempts
construction, caches on success, and on failure leaves the state unset
and raises the wrapping `RuntimeError`. -/
def getConfig (env : Env) (fs : FS) (st : Option ACDSYNConfig) :
    Except LoadError ACDSYNConfig × Option ACDSYNConfig :=
  match st with
  | some c => (Except.ok c, some c)
  | none =>
    match buildConfig env fs with
    | Except.ok c => (Except.ok c, some c)
    | Except.error e => (Except.error (LoadError.runtimeError e), none)

/-- Scalar values as produced by `yaml.safe_load` on the flat-mapping
fragment exercised here: integers and strings. -/
inductive YVal where
  | yInt (n : Int)
  | yStr (s : String)
deriving DecidableEq, Repr

/-- A YAML scalar: an integer literal parses as an integer, anything else
stays a string. -/
def parseScalar (s : String) : YVal :=
  match parseIntStr s with
  | some n => YVal.yInt n
  | none => YVal.yStr s

/-- One `key: value` line of a flat YAML mapping. -/
def parseYamlLine (line : String) : Except String (String × YVal) :=
  match splitChar ':' line.toList with
  | [k, v] => Except.ok (String.mk (trimChars k), parseScalar (String.mk (trimChars v)))
  | _ => Except.error ("could not parse line: " ++ line)

/-- Model of `yaml.safe_load`, restricted to the flat scalar-mapping
fragment: blank input yields `None` (Python's result for an empty
document); otherwise every non-blank line must be a `key: value` pair and
the result is the mapping in file order; a malformed line is a parse
error. -/
def safe_load (s : String) : Except String (Option (List (String × YVal))) :=
  let lines := (splitChar '\n' s.toList).filter (fun l => !(trimChars l).isEmpty)
  if lines.isEmpty then Except.ok none
  else ((lines.map (fun l => String.mk l)).mapM parseYamlLine).map some

/-- Errors raised by `load_yaml_config`: the explicit `FileNotFoundError`
for a missing path, or a YAML parse failure from `yaml.safe_load`. -/
inductive YamlError where
  | fileNotFound (path : String)
  | parseError (msg : String)
deriving DecidableEq, Repr

/-- `load_yaml_config(path)` from `config.py`: raises `FileNotFoundError`
when the path does not exist, otherwise returns `yaml.safe_load` of the
file contents (which is `None` for an empty file, not a mapping). -/
def load_yaml_config (fs : FS) (p : String) :
    Except YamlError (Option (List (String × YVal))) :=
  match lookupFS fs p with
  | none => Except.error (YamlError.fileNotFound p)
  | some content =>
    match safe_load content with
    | Except.ok d => Except.ok d
    | Except.error m => Except.error (YamlError.parseError m)

/-!
## Interleaving model of concurrent first calls to `get_config`

`get_config` reads and writes the bare module global `_config` with no
lock.  Each thread executing `get_config` on an initially unset singleton
performs, as separate atomic steps (they are separate Python bytecode
sequences, and `ACDSYNConfig()` performs filesystem I/O):

* pc 0 — evaluate `_config is None`; if the global is set, jump to the
  return (pc 2), else proceed to construction (pc 1);
* pc 1 — run `ACDSYNConfig()` (the initialization side effects, counted
  by `initCount`; each run yields a fresh instance, identified by its
  sequence number) and assign it to the global;
* pc 2 — evaluate `return _config` by reading the global;
* pc 3 — done.
-/

/-- Shared state of `n` threads racing through `get_config`:  the global
`_config` (`g`, holding an instance identifier), the number of times
`ACDSYNConfig()` has executed, each thread's program counter, and each
thread's returned instance. -/
structure RaceState where
  g : Option Nat
  initCount : Nat
  pcs : List Nat
  results : List (Option Nat)
deriving DecidableEq, Repr

/-- One atomic step of thread `tid` in the `get_config` body. -/
def raceStep (s : RaceState) (tid : Nat) : RaceState :=
  match s.pcs.get? tid with
  | none => s
  | some pc =>
    if pc = 0 then
      if s.g.isSome then { s with pcs := s.pcs.set tid 2 }
      else { s with pcs := s.pcs.set tid 1 }
    else if pc = 1 then
      { s with g := some s.initCount,
               initCount := s.initCount + 1,
               pcs := s.pcs.set tid 2 }
    else if pc = 2 then
      { s with results := s.results.set tid s.g,
               pcs := s.pcs.set tid 3 }
    else s

/-- Fresh process: the singleton unset, no initialization yet, every
thread about to execute the `_config is None` test. -/
def initRace (n : Nat) : RaceState :=
  { g := none, initCount := 0,
    pcs := List.replicate n 0, results := List.replicate n none }

/-- Run `n` threads through `get_config` under the interleaving given by
`sched` (a list of thread indices). -/
def runSched (n : Nat) (sched : List Nat) : RaceState :=
  sched.foldl raceStep (initRace n)

/-!
## Resolver helpers

`resolvedField` names the value an optional field resolves to when its
coercion succeeds; `mkResolved` is the record `buildConfig` produces on a
fully valid environment.  The `…OkB` booleans are the decidable
side conditions under which `buildConfig` reaches each point.
-/

/-- The resolved value of an optional field: its default when unset,
otherwise the parsed value. -/
def resolvedField {α : Type} (env : Env) (name : String)
    (parse : String → Option α) (dflt : α) : α :=
  match lookupEnv env name with
  | none => dflt
  | some s => (parse s).getD dflt

/-- The string an environment variable supplies, or a default. -/
def resolvedStr (env : Env) (name : String) (dflt : String) : String :=
  resolvedField env name (fun s => some s) dflt

/-- The compatibility threshold `buildConfig` will check: the default
`0.7` when unset, otherwise the parsed environment value. -/
def compatVal (env : Env) : Rat :=
  resolvedField env "compatibility_threshold" parseRatStr (Rat.divInt 7 10)

/-- Optional-field health: the variable is unset, or its value passes
coercion. -/
def optFieldOkB {α : Type} (env : Env) (name : String)
    (parse : String → Option α) : Bool :=
  match lookupEnv env name with
  | none => true
  | some s => (parse s).isSome

/-- Required-field health: both Firebase variables are set and the
supplied credentials path exists. -/
def reqOkB (env : Env) (fs : FS) : Bool :=
  match lookupEnv env "FIREBASE_PROJECT_ID",
        lookupEnv env "FIREBASE_CREDENTIALS_PATH" with
  | some _, some cp => pathExists fs cp
  | _, _ => false

/-- Every optional field is unset or coercible, and `DOMAIN_CONFIGS` is
unset (environment override of `domain_configs` is outside the modelled
fragment). -/
def optsOkB (env : Env) : Bool :=
  optFieldOkB env "max_domain_connections" parseIntStr &&
  optFieldOkB env "synthesis_timeout_seconds" parseIntStr &&
  optFieldOkB env "retry_attempts" parseIntStr &&
  optFieldOkB env "retry_delay_seconds" parseIntStr &&
  optFieldOkB env "metrics_collection_interval" parseIntStr &&
  optFieldOkB env "optimization_cycle_hours" parseIntStr &&
  optFieldOkB env "performance_threshold" parseRatStr &&
  optFieldOkB env "log_level" parseLogLevel &&
  optFieldOkB env "enable_structured_logging" parseBoolStr &&
  optFieldOkB env "default_strategy" parseStrategy &&
  optFieldOkB env "enable_emergent_behavior" parseBoolStr &&
  optFieldOkB env "max_synthesis_depth" parseIntStr &&
  optFieldOkB env "compatibility_threshold" parseRatStr &&
  (lookupEnv env "domain_configs").isNone

/-- The record `buildConfig` constructs once every field has resolved and
the credentials path has validated. -/
def mkResolved (env : Env) : ACDSYNConfig where
  firebase_project_id := resolvedStr env "FIREBASE_PROJECT_ID" ""
  firebase_credentials_path := resolvedStr env "FIREBASE_CREDENTIALS_PATH" ""
  firestore_collection_prefix := resolvedStr env "firestore_collection_prefix" "acdsyn_"
  max_domain_connections := resolvedField env "max_domain_connections" parseIntStr 100
  synthesis_timeout_seconds := resolvedField env "synthesis_timeout_seconds" parseIntStr 300
  retry_attempts := resolvedField env "retry_attempts" parseIntStr 3
  retry_delay_seconds := resolvedField env "retry_delay_seconds" parseIntStr 5
  metrics_collection_interval := resolvedField env "metrics_collection_interval" parseIntStr 60
  optimization_cycle_hours := resolvedField env "optimization_cycle_hours" parseIntStr 24
  performance_threshold := resolvedField env "performance_threshold" parseRatStr (Rat.divInt 4 5)
  log_level := resolvedField env "log_level" parseLogLevel LogLevel.INFO
  log_format := resolvedStr env "log_format" "json"
  enable_structured_logging := resolvedField env "enable_structured_logging" parseBoolStr true
  default_strategy := resolvedField env "default_strategy" parseStrategy SynthesisStrategy.HYBRID
  enable_emergent_behavior := resolvedField env "enable_emergent_behavior" parseBoolStr true
  max_synthesis_depth := resolvedField env "max_synthesis_depth" parseIntStr 5
  compatibility_threshold := compatVal env
  domain_configs := defaultDomainConfigs

/-!
## Reduction lemmas

These let the `do`-chain of `buildConfig` be evaluated step by step under
hypotheses about the environment.
-/

theorem exceptBind_ok {ε α β : Type} (a : α) (f : α → Except ε β) :
    (bind (Except.ok a) f : Except ε β) = f a := rfl

theorem exceptBind_error {ε α β : Type} (e : ε) (f : α → Except ε β) :
    (bind (Except.error e) f : Except ε β) = Except.error e := rfl

theorem compatVal_def (env : Env) :
    compatVal env = resolvedField env "compatibility_threshold" parseRatStr (Rat.divInt 7 10) := rfl

theorem getRequiredField_eq (env : Env) (envName fieldName s : String)
    (h : lookupEnv env envName = some s) :
    getRequiredField env envName fieldName = Except.ok s := by
  simp [getRequiredField, h]

theorem getRequiredField_missing (env : Env) (envName fieldName : String)
    (h : lookupEnv env envName = none) :
    getRequiredField env envName fieldName =
      Except.error (ConfigError.missingRequiredField fieldName) := by
  simp [getRequiredField, h]

theorem validate_credentials_path_ok (fs : FS) (v : String)
    (h : pathExists fs v = true) :
    validate_credentials_path fs v = Except.ok v := by
  simp [validate_credentials_path, h]

theorem getOptField_eq {α : Type} (env : Env) (name : String)
    (parse : String → Option α) (dflt : α)
    (h : optFieldOkB env name parse = true) :
    getOptField env name parse dflt = Except.ok (resolvedField env name parse dflt) := by
  simp only [optFieldOkB] at h
  simp only [getOptField, resolvedField]
  cases hl : lookupEnv env name with
  | none => rfl
  | some s =>
    simp only [hl] at h ⊢
    cases hp : parse s with
    | none => rw [hp] at h; simp at h
    | some v => simp [hp]

theorem getOptField_str_eq (env : Env) (name dflt : String) :
    getOptField env name (fun s => some s) dflt = Except.ok (resolvedStr env name dflt) := by
  simp only [getOptField, resolvedStr, resolvedField]
  cases lookupEnv env name <;> simp

/-- Master resolution lemma: on an environment whose required fields are
present (with an existing credentials path) and whose optional fields all
coerce, `buildConfig` reduces to the range check that
`validate_threshold` performs on the resolved compatibility threshold:
the fully resolved record on success, the threshold validation error
otherwise. -/
theorem buildConfig_resolved (env : Env) (fs : FS)
    (hreq : reqOkB env fs = true) (hopts : optsOkB env = true) :
    buildConfig env fs =
      if 0 ≤ compatVal env ∧ compatVal env ≤ 1 then Except.ok (mkResolved env)
      else Except.error (ConfigError.validationError "compatibility_threshold"
        "compatibility_threshold must be between 0 and 1") := by
  simp only [optsOkB, Bool.and_eq_true, and_assoc] at hopts
  obtain ⟨ho1, ho2, ho3, ho4, ho5, ho6, ho7, ho8, ho9, ho10, ho11, ho12, ho13, hdc⟩ := hopts
  simp only [reqOkB] at hreq
  cases h1 : lookupEnv env "FIREBASE_PROJECT_ID" with
  | none => rw [h1] at hreq; simp at hreq
  | some pid =>
    cases h2 : lookupEnv env "FIREBASE_CREDENTIALS_PATH" with
    | none => rw [h1, h2] at hreq; simp at hreq
    | some cp =>
      rw [h1, h2] at hreq
      simp only [buildConfig,
        getRequiredField_eq env "FIREBASE_PROJECT_ID" "firebase_project_id" pid h1,
        getRequiredField_eq env "FIREBASE_CREDENTIALS_PATH" "firebase_credentials_path" cp h2,
        validate_credentials_path_ok fs cp hreq,
        getOptField_eq env "max_domain_connections" parseIntStr 100 ho1,
        getOptField_eq env "synthesis_timeout_seconds" parseIntStr 300 ho2,
        getOptField_eq env "retry_attempts" parseIntStr 3 ho3,
        getOptField_eq env "retry_delay_seconds" parseIntStr 5 ho4,
        getOptField_eq env "metrics_collection_interval" parseIntStr 60 ho5,
        getOptField_eq env "optimization_cycle_hours" parseIntStr 24 ho6,
        getOptField_eq env "performance_threshold" parseRatStr (Rat.divInt 4 5) ho7,
        getOptField_eq env "log_level" parseLogLevel LogLevel.INFO ho8,
        getOptField_eq env "enable_structured_logging" parseBoolStr true ho9,
        getOptField_eq env "default_strategy" parseStrategy SynthesisStrategy.HYBRID ho10,
        getOptField_eq env "enable_emergent_behavior" parseBoolStr true ho11,
        getOptField_eq env "max_synthesis_depth" parseIntStr 5 ho12,
        getOptField_eq env "compatibility_threshold" parseRatStr (Rat.divInt 7 10) ho13,
        getOptField_str_eq, exceptBind_ok]
      simp only [validate_threshold, ← compatVal_def]
      split
      · simp only [exceptBind_ok, pure, Except.pure, mkResolved, resolvedStr,
          resolvedField, h1, h2, Option.getD_some]
      · rw [exceptBind_error]

theorem getOptField_err {α : Type} (env : Env) (name : String)
    (parse : String → Option α) (dflt : α) (s : String)
    (hl : lookupEnv env name = some s) (hp : parse s = none) :
    getOptField env name parse dflt =
      Except.error (ConfigError.validationError name "value could not be coerced to the field type") := by
  simp [getOptField, hl, hp]

theorem buildConfig_missing_pid (env : Env) (fs : FS)
    (h : lookupEnv env "FIREBASE_PROJECT_ID" = none) :
    buildConfig env fs = Except.error (ConfigError.missingRequiredField "firebase_project_id") := by
  simp only [buildConfig, getRequiredField_missing env _ _ h, exceptBind_error]

theorem buildConfig_missing_cp (env : Env) (fs : FS) (pid : String)
    (h1 : lookupEnv env "FIREBASE_PROJECT_ID" = some pid)
    (h2 : lookupEnv env "FIREBASE_CREDENTIALS_PATH" = none) :
    buildConfig env fs = Except.error (ConfigError.missingRequiredField "firebase_credentials_path") := by
  simp only [buildConfig, getRequiredField_eq env _ _ pid h1,
    getRequiredField_missing env _ _ h2, exceptBind_ok, exceptBind_error]

theorem buildConfig_creds_missing (env : Env) (fs : FS) (pid cp : String)
    (h1 : lookupEnv env "FIREBASE_PROJECT_ID" = some pid)
    (h2 : lookupEnv env "FIREBASE_CREDENTIALS_PATH" = some cp)
    (h3 : pathExists fs cp = false) :
    buildConfig env fs = Except.error (ConfigError.credentialsNotFound cp) := by
  simp only [buildConfig, getRequiredField_eq env _ _ pid h1,
    getRequiredField_eq env _ _ cp h2, exceptBind_ok]
  simp only [validate_credentials_path, h3, Bool.false_eq_true, if_false, exceptBind_error]

theorem getConfig_of_buildOk (env : Env) (fs : FS) (c : ACDSYNConfig)
    (h : buildConfig env fs = Except.ok c) :
    getConfig env fs none = (Except.ok c, some c) := by
  simp only [getConfig, h]

theorem getConfig_of_buildError (env : Env) (fs : FS) (e : ConfigError)
    (h : buildConfig env fs = Except.error e) :
    getConfig env fs none = (Except.error (LoadError.runtimeError e), none) := by
  simp only [getConfig, h]

/-!
## Concrete environments used by the claims
-/

/-- The spec's scenario environment: both required Firebase variables set,
everything else unset. -/
def scenarioEnv : Env :=
  [("FIREBASE_PROJECT_ID", "proj1"), ("FIREBASE_CREDENTIALS_PATH", "/tmp/creds.json")]

/-- The spec's scenario filesystem: `/tmp/creds.json` exists and is empty. -/
def scenarioFS : FS := [("/tmp/creds.json", "")]

/-- Required fields plus one extra environment variable. -/
def envWith (field val : String) : Env := scenarioEnv ++ [(field, val)]

/-- Required fields (with symbolic values) plus one extra variable: used to
exercise a single field of the load with everything else defaulted. -/
def enumEnv (pid cp field val : String) : Env :=
  [("FIREBASE_PROJECT_ID", pid), ("FIREBASE_CREDENTIALS_PATH", cp), (field, val)]

/-- C1 — The claim as frozen is false on the code: `validate_threshold`
is declared for `compatibility_threshold` only, so an out-of-range
`performance_threshold` does not fail the load.  Concretely, with
`PERFORMANCE_THRESHOLD=2.5` (and both required fields valid) the load
succeeds and stores `5/2`, which exceeds 1. -/
theorem c1_performance_not_validated :
    ((getConfig (envWith "PERFORMANCE_THRESHOLD" "2.5") scenarioFS none).1.toOption.map
      (fun c => c.performance_threshold) = some (Rat.divInt 5 2)) ∧
    ¬((Rat.divInt 5 2 : Rat) ≤ 1) := by
  decide

/-- C1 (amended) — Only `compatibility_threshold` is range-validated:
(1) a supplied compatibility threshold outside `[0, 1]` makes
`get_config()` fail with the threshold validation error; (2) a supplied
boundary value (0 or 1) loads successfully; (3) a supplied
`performance_threshold` is stored without any range check, whatever its
value. -/
theorem c1_only_compatibility_validated :
    (∀ (env : Env) (fs : FS) (s : String) (v : Rat),
      reqOkB env fs = true → optsOkB env = true →
      lookupEnv env "compatibility_threshold" = some s → parseRatStr s = some v →
      ¬(0 ≤ v ∧ v ≤ 1) →
      (getConfig env fs none).1 = Except.error (LoadError.runtimeError
        (ConfigError.validationError "compatibility_threshold"
          "compatibility_threshold must be between 0 and 1"))) ∧
    (∀ (env : Env) (fs : FS) (s : String) (v : Rat),
      reqOkB env fs = true → optsOkB env = true →
      lookupEnv env "compatibility_threshold" = some s → parseRatStr s = some v →
      (v = 0 ∨ v = 1) →
      (getConfig env fs none).1 = Except.ok (mkResolved env) ∧
      (mkResolved env).compatibility_threshold = v) ∧
    (∀ (env : Env) (fs : FS) (s : String) (v : Rat),
      reqOkB env fs = true → optsOkB env = true →
      0 ≤ compatVal env → compatVal env ≤ 1 →
      lookupEnv env "performance_threshold" = some s → parseRatStr s = some v →
      (getConfig env fs none).1 = Except.ok (mkResolved env) ∧
      (mkResolved env).performance_threshold = v) := by
  refine ⟨?_, ?_, ?_⟩
  · intro env fs s v hreq hopts hl hp hout
    have hcv : compatVal env = v := by
      simp [compatVal_def, resolvedField, hl, hp]
    have hb : buildConfig env fs = Except.error (ConfigError.validationError
        "compatibility_threshold" "compatibility_threshold must be between 0 and 1") := by
      rw [buildConfig_resolved env fs hreq hopts, hcv, if_neg hout]
    rw [getConfig_of_buildError env fs _ hb]
  · intro env fs s v hreq hopts hl hp hbd
    have hcv : compatVal env = v := by
      simp [compatVal_def, resolvedField, hl, hp]
    have hin : 0 ≤ compatVal env ∧ compatVal env ≤ 1 := by
      rw [hcv]
      rcases hbd with rfl | rfl <;> norm_num
    have hb : buildConfig env fs = Except.ok (mkResolved env) := by
      rw [buildConfig_resolved env fs hreq hopts, if_pos hin]
    refine ⟨by rw [getConfig_of_buildOk env fs _ hb], ?_⟩
    simp [mkResolved, hcv]
  · intro env fs s v hreq hopts hc0 hc1 hl hp
    have hb : buildConfig env fs = Except.ok (mkResolved env) := by
      rw [buildConfig_resolved env fs hreq hopts, if_pos ⟨hc0, hc1⟩]
    refine ⟨by rw [getConfig_of_buildOk env fs _ hb], ?_⟩
    simp [mkResolved, resolvedField, hl, hp]

/-- Witness for C1 (amended): with `COMPATIBILITY_THRESHOLD=1.0` at the
boundary, the load succeeds and stores exactly 1. -/
theorem c1_only_compatibility_validated_witness :
    (getConfig (envWith "COMPATIBILITY_THRESHOLD" "1.0") scenarioFS none).1 =
      Except.ok (mkResolved (envWith "COMPATIBILITY_THRESHOLD" "1.0")) ∧
    (mkResolved (envWith "COMPATIBILITY_THRESHOLD" "1.0")).compatibility_threshold = 1 :=
  c1_only_compatibility_validated.2.1 (envWith "COMPATIBILITY_THRESHOLD" "1.0") scenarioFS
    "1.0" 1 (by decide) (by decide) (by decide) (by decide) (Or.inr rfl)

/-- C2 — A missing `FIREBASE_PROJECT_ID` or `FIREBASE_CREDENTIALS_PATH`
makes `get_config()` fail with the missing-required-field error for that
field, wrapped in the `RuntimeError`; no instance is constructed or
cached (the singleton stays unset), so no default is substituted. -/
theorem c2_missing_required_fails :
    (∀ (env : Env) (fs : FS),
      lookupEnv env "FIREBASE_PROJECT_ID" = none →
      getConfig env fs none = (Except.error (LoadError.runtimeError
        (ConfigError.missingRequiredField "firebase_project_id")), none)) ∧
    (∀ (env : Env) (fs : FS) (pid : String),
      lookupEnv env "FIREBASE_PROJECT_ID" = some pid →
      lookupEnv env "FIREBASE_CREDENTIALS_PATH" = none →
      getConfig env fs none = (Except.error (LoadError.runtimeError
        (ConfigError.missingRequiredField "firebase_credentials_path")), none)) := by
  constructor
  · intro env fs h
    exact getConfig_of_buildError env fs _ (buildConfig_missing_pid env fs h)
  · intro env fs pid h1 h2
    exact getConfig_of_buildError env fs _ (buildConfig_missing_cp env fs pid h1 h2)

/-- Witness for C2: the empty environment is missing both required
fields, and the first of them is reported. -/
theorem c2_missing_required_fails_witness :
    getConfig [] [] none = (Except.error (LoadError.runtimeError
      (ConfigError.missingRequiredField "firebase_project_id")), none) :=
  c2_missing_required_fails.1 [] [] (by decide)

/-- C3 — Once a first call has succeeded the instance is cached: the
successful result is exactly what gets cached, and every subsequent call
returns that same instance as-is, whatever the environment and
filesystem now contain (they are not read at all on the cached path). -/
theorem c3_singleton_caching :
    (∀ (env : Env) (fs : FS) (c : ACDSYNConfig),
      (getConfig env fs none).1 = Except.ok c → (getConfig env fs none).2 = some c) ∧
    (∀ (c : ACDSYNConfig) (env2 : Env) (fs2 : FS),
      getConfig env2 fs2 (some c) = (Except.ok c, some c)) := by
  constructor
  · intro env fs c h
    simp only [getConfig] at h ⊢
    cases hb : buildConfig env fs with
    | ok c0 =>
      rw [hb] at h
      have h2 : (Except.ok c0 : Except LoadError ACDSYNConfig) = Except.ok c := h
      cases h2
      rfl
    | error e =>
      rw [hb] at h
      exact Except.noConfusion
        (show (Except.error (LoadError.runtimeError e) : Except LoadError ACDSYNConfig) = Except.ok c from h)
  · intro c env2 fs2
    rfl

/-- Witness for C3: the scenario load succeeds and is cached; a later
call with a completely different (here empty) environment returns the
cached instance unchanged. -/
theorem c3_singleton_caching_witness :
    (getConfig scenarioEnv scenarioFS none).2 = some (mkResolved scenarioEnv) ∧
    getConfig [] [] (some (mkResolved scenarioEnv)) =
      (Except.ok (mkResolved scenarioEnv), some (mkResolved scenarioEnv)) :=
  ⟨c3_singleton_caching.1 scenarioEnv scenarioFS (mkResolved scenarioEnv) rfl,
   c3_singleton_caching.2 (mkResolved scenarioEnv) [] []⟩

/-- C4 — Credentials-path handling: (1) a supplied path that does not
exist makes `get_config()` fail with the `FileNotFoundError` cause and
caches nothing; (2) on an existing path `validate_credentials_path`
succeeds and returns the path unchanged; (3) in a fully valid load the
constructed instance carries exactly the supplied path. -/
theorem c4_credentials_path :
    (∀ (env : Env) (fs : FS) (pid cp : String),
      lookupEnv env "FIREBASE_PROJECT_ID" = some pid →
      lookupEnv env "FIREBASE_CREDENTIALS_PATH" = some cp →
      pathExists fs cp = false →
      getConfig env fs none = (Except.error (LoadError.runtimeError
        (ConfigError.credentialsNotFound cp)), none)) ∧
    (∀ (fs : FS) (cp : String), pathExists fs cp = true →
      validate_credentials_path fs cp = Except.ok cp) ∧
    (∀ (env : Env) (fs : FS) (cp : String),
      reqOkB env fs = true → optsOkB env = true →
      0 ≤ compatVal env → compatVal env ≤ 1 →
      lookupEnv env "FIREBASE_CREDENTIALS_PATH" = some cp →
      (getConfig env fs none).1 = Except.ok (mkResolved env) ∧
      (mkResolved env).firebase_credentials_path = cp) := by
  refine ⟨?_, ?_, ?_⟩
  · intro env fs pid cp h1 h2 h3
    exact getConfig_of_buildError env fs _ (buildConfig_creds_missing env fs pid cp h1 h2 h3)
  · intro fs cp h
    exact validate_credentials_path_ok fs cp h
  · intro env fs cp hreq hopts h0 h1 hl
    have hb : buildConfig env fs = Except.ok (mkResolved env) := by
      rw [buildConfig_resolved env fs hreq hopts, if_pos ⟨h0, h1⟩]
    refine ⟨by rw [getConfig_of_buildOk env fs _ hb], ?_⟩
    simp [mkResolved, resolvedStr, resolvedField, hl]

/-- Witness for C4: a nonexistent credentials path fails the load; the
scenario path exists, validates unchanged, and ends up in the instance. -/
theorem c4_credentials_path_witness :
    getConfig scenarioEnv [] none = (Except.error (LoadError.runtimeError
      (ConfigError.credentialsNotFound "/tmp/creds.json")), none) ∧
    validate_credentials_path scenarioFS "/tmp/creds.json" = Except.ok "/tmp/creds.json" ∧
    (mkResolved scenarioEnv).firebase_credentials_path = "/tmp/creds.json" :=
  ⟨c4_credentials_path.1 scenarioEnv [] "proj1" "/tmp/creds.json" (by decide) (by decide) (by decide),
   c4_credentials_path.2.1 scenarioFS "/tmp/creds.json" (by decide),
   (c4_credentials_path.2.2 scenarioEnv scenarioFS "/tmp/creds.json"
     (by decide) (by decide) (by decide) (by decide) (by decide)).2⟩

/-- C5 — `load_yaml_config` raises `FileNotFoundError` exactly when the
path has no entry in the filesystem; on an existing file holding
`max_components: 10` it returns the mapping with the single entry
`("max_components", 10)`, matching the file's literal content. -/
theorem c5_load_yaml_config :
    (∀ (fs : FS) (p : String),
      load_yaml_config fs p = Except.error (YamlError.fileNotFound p) ↔ lookupFS fs p = none) ∧
    load_yaml_config [("config.yaml", "max_components: 10")] "config.yaml" =
      Except.ok (some [("max_components", YVal.yInt 10)]) := by
  constructor
  · intro fs p
    unfold load_yaml_config
    cases hf : lookupFS fs p with
    | none => simp
    | some content => cases hs : safe_load content <;> simp [hs]
  · rfl

/-- Witness for C5: a path absent from the filesystem produces exactly
the file-not-found failure. -/
theorem c5_load_yaml_config_witness :
    load_yaml_config [] "missing.yaml" = Except.error (YamlError.fileNotFound "missing.yaml") :=
  (c5_load_yaml_config.1 [] "missing.yaml").mpr (by decide)

/-- C7 — The spec scenario: only `FIREBASE_PROJECT_ID=proj1` and
`FIREBASE_CREDENTIALS_PATH=/tmp/creds.json` are set and the credentials
file exists (empty); `get_config()` succeeds with `log_level=INFO`,
`default_strategy=HYBRID`, `compatibility_threshold=0.7` and
`max_domain_connections=100`. -/
theorem c7_default_scenario :
    (getConfig scenarioEnv scenarioFS none).1.toOption.map
      (fun c => (c.log_level, c.default_strategy, c.compatibility_threshold,
                 c.max_domain_connections)) =
    some (LogLevel.INFO, SynthesisStrategy.HYBRID, Rat.divInt 7 10, (100 : Int)) := by
  decide

/-- C6 — Enum-typed fields accept exactly the declared variant strings,
case-sensitively: the three coercions succeed precisely on a declared
variant value, and a load supplied with an unrecognised value for
`default_strategy` or `log_level` fails with that field's validation
error. -/
theorem c6_enum_values_case_sensitive :
    (∀ t : String, (parseLogLevel t).isSome = true ↔ ∃ v : LogLevel, t = v.value) ∧
    (∀ t : String, (parseStrategy t).isSome = true ↔ ∃ v : SynthesisStrategy, t = v.value) ∧
    (∀ t : String, (parseDomainType t).isSome = true ↔ ∃ v : DomainType, t = v.value) ∧
    (∀ (pid cp t : String) (fs : FS),
      pathExists fs cp = true → parseStrategy t = none →
      (getConfig (enumEnv pid cp "DEFAULT_STRATEGY" t) fs none).1 =
        Except.error (LoadError.runtimeError (ConfigError.validationError "default_strategy"
          "value could not be coerced to the field type"))) ∧
    (∀ (pid cp t : String) (fs : FS),
      pathExists fs cp = true → parseLogLevel t = none →
      (getConfig (enumEnv pid cp "LOG_LEVEL" t) fs none).1 =
        Except.error (LoadError.runtimeError (ConfigError.validationError "log_level"
          "value could not be coerced to the field type"))) := by
  refine ⟨?_, ?_, ?_, ?_, ?_⟩
  · intro t
    constructor
    · intro h
      unfold parseLogLevel at h
      split_ifs at h with h1 h2 h3 h4 h5
      · exact ⟨.DEBUG, h1⟩
      · exact ⟨.INFO, h2⟩
      · exact ⟨.WARNING, h3⟩
      · exact ⟨.ERROR, h4⟩
      · exact ⟨.CRITICAL, h5⟩
      · simp at h
    · rintro ⟨v, rfl⟩
      cases v <;> decide
  · intro t
    constructor
    · intro h
      unfold parseStrategy at h
      split_ifs at h with h1 h2 h3 h4
      · exact ⟨.PARALLEL, h1⟩
      · exact ⟨.SEQUENTIAL, h2⟩
      · exact ⟨.HYBRID, h3⟩
      · exact ⟨.EMERGENT, h4⟩
      · simp at h
    · rintro ⟨v, rfl⟩
      cases v <;> decide
  · intro t
    constructor
    · intro h
      unfold parseDomainType at h
      split_ifs at h with h1 h2 h3 h4 h5 h6
      · exact ⟨.DATA_SCIENCE, h1⟩
      · exact ⟨.SOFTWARE_ENGINEERING, h2⟩
      · exact ⟨.RESEARCH, h3⟩
      · exact ⟨.AUTOMATION, h4⟩
      · exact ⟨.FINANCE, h5⟩
      · exact ⟨.HEALTHCARE, h6⟩
      · simp at h
    · rintro ⟨v, rfl⟩
      cases v <;> decide
  · intro pid cp t fs hfs hp
    have hb : buildConfig (enumEnv pid cp "DEFAULT_STRATEGY" t) fs =
        Except.error (ConfigError.validationError "default_strategy"
          "value could not be coerced to the field type") := by
      simp only [buildConfig,
        getRequiredField_eq (enumEnv pid cp "DEFAULT_STRATEGY" t)
          "FIREBASE_PROJECT_ID" "firebase_project_id" pid rfl,
        getRequiredField_eq (enumEnv pid cp "DEFAULT_STRATEGY" t)
          "FIREBASE_CREDENTIALS_PATH" "firebase_credentials_path" cp rfl,
        validate_credentials_path_ok fs cp hfs,
        getOptField_eq (enumEnv pid cp "DEFAULT_STRATEGY" t)
          "firestore_collection_prefix" (fun u => some u) "acdsyn_" rfl,
        getOptField_eq (enumEnv pid cp "DEFAULT_STRATEGY" t)
          "max_domain_connections" parseIntStr 100 rfl,
        getOptField_eq (enumEnv pid cp "DEFAULT_STRATEGY" t)
          "synthesis_timeout_seconds" parseIntStr 300 rfl,
        getOptField_eq (enumEnv pid cp "DEFAULT_STRATEGY" t)
          "retry_attempts" parseIntStr 3 rfl,
        getOptField_eq (enumEnv pid cp "DEFAULT_STRATEGY" t)
          "retry_delay_seconds" parseIntStr 5 rfl,
        getOptField_eq (enumEnv pid cp "DEFAULT_STRATEGY" t)
          "metrics_collection_interval" parseIntStr 60 rfl,
        getOptField_eq (enumEnv pid cp "DEFAULT_STRATEGY" t)
          "optimization_cycle_hours" parseIntStr 24 rfl,
        getOptField_eq (enumEnv pid cp "DEFAULT_STRATEGY" t)
          "performance_threshold" parseRatStr (Rat.divInt 4 5) rfl,
        getOptField_eq (enumEnv pid cp "DEFAULT_STRATEGY" t)
          "log_level" parseLogLevel LogLevel.INFO rfl,
        getOptField_eq (enumEnv pid cp "DEFAULT_STRATEGY" t)
          "log_format" (fun u => some u) "json" rfl,
        getOptField_eq (enumEnv pid cp "DEFAULT_STRATEGY" t)
          "enable_structured_logging" parseBoolStr true rfl,
        getOptField_err (enumEnv pid cp "DEFAULT_STRATEGY" t)
          "default_strategy" parseStrategy SynthesisStrategy.HYBRID t rfl hp,
        exceptBind_ok, exceptBind_error]
    rw [getConfig_of_buildError _ fs _ hb]
  · intro pid cp t fs hfs hp
    have hb : buildConfig (enumEnv pid cp "LOG_LEVEL" t) fs =
        Except.error (ConfigError.validationError "log_level"
          "value could not be coerced to the field type") := by
      simp only [buildConfig,
        getRequiredField_eq (enumEnv pid cp "LOG_LEVEL" t)
          "FIREBASE_PROJECT_ID" "firebase_project_id" pid rfl,
        getRequiredField_eq (enumEnv pid cp "LOG_LEVEL" t)
          "FIREBASE_CREDENTIALS_PATH" "firebase_credentials_path" cp rfl,
        validate_credentials_path_ok fs cp hfs,
        getOptField_eq (enumEnv pid cp "LOG_LEVEL" t)
          "firestore_collection_prefix" (fun u => some u) "acdsyn_" rfl,
        getOptField_eq (enumEnv pid cp "LOG_LEVEL" t)
          "max_domain_connections" parseIntStr 100 rfl,
        getOptField_eq (enumEnv pid cp "LOG_LEVEL" t)
          "synthesis_timeout_seconds" parseIntStr 300 rfl,
        getOptField_eq (enumEnv pid cp "LOG_LEVEL" t)
          "retry_attempts" parseIntStr 3 rfl,
        getOptField_eq (enumEnv pid cp "LOG_LEVEL" t)
          "retry_delay_seconds" parseIntStr 5 rfl,
        getOptField_eq (enumEnv pid cp "LOG_LEVEL" t)
          "metrics_collection_interval" parseIntStr 60 rfl,
        getOptField_eq (enumEnv pid cp "LOG_LEVEL" t)
          "optimization_cycle_hours" parseIntStr 24 rfl,
        getOptField_eq (enumEnv pid cp "LOG_LEVEL" t)
          "performance_threshold" parseRatStr (Rat.divInt 4 5) rfl,
        getOptField_err (enumEnv pid cp "LOG_LEVEL" t)
          "log_level" parseLogLevel LogLevel.INFO t rfl hp,
        exceptBind_ok, exceptBind_error]
    rw [getConfig_of_buildError _ fs _ hb]

/-- Witness for C6: `"HYBRID"` differs in case from the declared variant
value `"hybrid"`, so the coercion rejects it and the load fails on
`default_strategy`. -/
theorem c6_enum_values_case_sensitive_witness :
    (getConfig (enumEnv "proj1" "/tmp/creds.json" "DEFAULT_STRATEGY" "HYBRID") scenarioFS none).1 =
      Except.error (LoadError.runtimeError (ConfigError.validationError "default_strategy"
        "value could not be coerced to the field type")) :=
  c6_enum_values_case_sensitive.2.2.2.1 "proj1" "/tmp/creds.json" "HYBRID" scenarioFS
    (by decide) (by decide)

/-- C8 — The claim's exactly-once guarantee fails on the code:
`get_config` guards the bare global with a plain `is None` test and no
lock, so under the interleaving in which both of two first-time callers
execute the test before either assigns (schedule `[0, 1, 0, 0, 1, 1]`),
`ACDSYNConfig()` runs twice — the initialization side effects (the
filesystem check) happen twice — and the two callers return distinct
instances. -/
theorem c8_race_double_initialization :
    (runSched 2 [0, 1, 0, 0, 1, 1]).initCount = 2 ∧
    (runSched 2 [0, 1, 0, 0, 1, 1]).results = [some 0, some 1] := by
  decide

/-- C9 — A failed `get_config()` leaves the singleton unset, so the next
call re-attempts the full initialization and succeeds whenever
construction now succeeds. -/
theorem c9_failure_leaves_singleton_unset :
    (∀ (env : Env) (fs : FS) (e : LoadError),
      (getConfig env fs none).1 = Except.error e → (getConfig env fs none).2 = none) ∧
    (∀ (env : Env) (fs : FS) (env2 : Env) (fs2 : FS) (e : LoadError) (c : ACDSYNConfig),
      (getConfig env fs none).1 = Except.error e →
      buildConfig env2 fs2 = Except.ok c →
      getConfig env2 fs2 ((getConfig env fs none).2) = (Except.ok c, some c)) := by
  have key : ∀ (env : Env) (fs : FS) (e : LoadError),
      (getConfig env fs none).1 = Except.error e → (getConfig env fs none).2 = none := by
    intro env fs e h
    simp only [getConfig] at h ⊢
    cases hb : buildConfig env fs with
    | ok c0 =>
      rw [hb] at h
      exact Except.noConfusion
        (show (Except.ok c0 : Except LoadError ACDSYNConfig) = Except.error e from h)
    | error e0 =>
      rfl
  refine ⟨key, ?_⟩
  intro env fs env2 fs2 e c h hb2
  rw [key env fs e h]
  exact getConfig_of_buildOk env2 fs2 c hb2

/-- Witness for C9: the empty environment fails the load and caches
nothing; a second call under the valid scenario environment then
succeeds with the fully resolved instance. -/
theorem c9_failure_leaves_singleton_unset_witness :
    getConfig scenarioEnv scenarioFS ((getConfig [] [] none).2) =
      (Except.ok (mkResolved scenarioEnv), some (mkResolved scenarioEnv)) :=
  c9_failure_leaves_singleton_unset.2 [] [] scenarioEnv scenarioFS
    (LoadError.runtimeError (ConfigError.missingRequiredField "firebase_project_id"))
    (mkResolved scenarioEnv) rfl rfl

/-- C10 — `load_yaml_config` on an existing but empty file returns the
YAML parser's result for an empty document: `None`, not a mapping. -/
theorem c10_empty_file_yields_none :
    load_yaml_config [("empty.yaml", "")] "empty.yaml" = Except.ok none := rfl
